import Mathlib

/-!
Verification development for the jobhunter-bot repository.

The Python source is shallowly embedded: pure functions become Lean
functions on Nat / Int / Rat / String / List, stateful code becomes
explicit state passing, and fallible code returns Option or Except.
Python floats are modelled as exact rationals, datetimes as explicit
calendar records, and machine-level hashing (md5) is implemented over
Nat with explicit reductions mod 2 ^ 32.
-/

namespace JobHunter

/-! ## Python string primitives used by the matcher and the models -/

/-- Models the Python test that a string begins with a given needle:
returns true when the first argument is an initial segment of the
second. -/
def leadsWith : List Char → List Char → Bool
  | [], _ => true
  | _ :: _, [] => false
  | c :: cs, d :: ds => c = d && leadsWith cs ds

/-- Models the Python substring operator x in y on char lists:
hasSub hay needle is true when needle occurs contiguously in hay.
An empty needle is contained in every string, as in Python. -/
def hasSub : List Char → List Char → Bool
  | [], needle => needle.isEmpty
  | h :: t, needle => leadsWith needle (h :: t) || hasSub t needle

/-- Python needle in hay for strings. -/
def strHasSub (hay needle : String) : Bool :=
  hasSub hay.toList needle.toList

/-- Python str.lower, restricted to the ASCII case mapping. -/
def lowerStr (s : String) : String :=
  String.mk (s.toList.map Char.toLower)

/-- Maximal runs of non-whitespace characters; the accumulator holds
the current run reversed. -/
def wsRunsAux : List Char → List Char → List (List Char)
  | [], cur => if cur.isEmpty then [] else [cur.reverse]
  | c :: t, cur =>
    if c.isWhitespace then
      if cur.isEmpty then wsRunsAux t cur
      else cur.reverse :: wsRunsAux t []
    else wsRunsAux t (c :: cur)

/-- Python str.split() with no argument: splits on whitespace runs and
discards empty pieces. -/
def pySplitWs (s : String) : List String :=
  (wsRunsAux s.toList []).map String.mk

/-- Python str.replace for single characters. -/
def pyReplaceChar (s : String) (a b : Char) : String :=
  String.mk (s.toList.map (fun c => if c = a then b else c))

/-- Value of a list of decimal digit characters, most significant first. -/
def digitsVal (ds : List Char) : Nat :=
  ds.foldl (fun acc c => acc * 10 + (c.toNat - '0'.toNat)) 0

/-- Python round-half-to-even of a rational to an integer, as used by
round(x, 1) after scaling by 10 (floats are modelled as exact
rationals). -/
def roundHalfEven (q : Rat) : Int :=
  let n : Int := q.floor
  let f : Rat := q - n
  if f < 1/2 then n
  else if 1/2 < f then n + 1
  else if n % 2 = 0 then n else n + 1

/-- Python round(x, 1) on the rational model. -/
def pyRound1 (q : Rat) : Rat :=
  (roundHalfEven (q * 10) : Rat) / 10

/-! ## Data model: backend/src/models/job.py and the matcher profile -/

/-- JobSource enum from backend/src/models/job.py. -/
inductive JobSource
  | linkedin
  | x_twitter
  | manual
deriving DecidableEq, Repr

/-- JobStatus enum from backend/src/models/job.py. -/
inductive JobStatus
  | new
  | applied
  | rejected
  | interview
  | offer
  | archived
deriving DecidableEq, Repr

/-- A calendar timestamp: year, month, day plus a seconds-of-day
component. Ordered lexicographically, which agrees with the comparison
of isoformat strings performed by the SQLite layer. -/
structure DateTime where
  year : Nat
  month : Nat
  day : Nat
  tod : Nat
deriving DecidableEq, Repr

/-- Lexicographic strict order on timestamps, matching both datetime
comparison and isoformat string comparison. -/
def DateTime.lt (a b : DateTime) : Bool :=
  if a.year ≠ b.year then a.year < b.year
  else if a.month ≠ b.month then a.month < b.month
  else if a.day ≠ b.day then a.day < b.day
  else a.tod < b.tod

/-- The Job dataclass from backend/src/models/job.py.  String fields
default to the empty string there; optional fields are Option here.
The salary field is the one exception to source-only modelling.
Modelled from the spec: the free-text salary range hint of a Posting.
JobMatcher._calculate_salary_match reads job.salary dynamically, but
the Job dataclass in src never declares that attribute, so its value
is taken from the spec's data model (an optional free-text hint). -/
structure Job where
  id : Option String := none
  title : String := ""
  company : String := ""
  location : String := ""
  description : String := ""
  requirements : String := ""
  salary_min : Option Rat := none
  salary_max : Option Rat := none
  salary_currency : String := "BRL"
  url : String := ""
  contact_email : Option String := none
  source : JobSource := JobSource.manual
  status : JobStatus := JobStatus.new
  remote_ok : Bool := false
  contract_type : String := ""
  required_skills : List String := []
  nice_to_have_skills : List String := []
  match_score : Option Rat := none
  posted_date : Option DateTime := none
  found_date : DateTime := ⟨2025, 1, 1, 0⟩
  applied_date : Option DateTime := none
  tags : List String := []
  experience_level : String := ""
  salary : Option String := none
deriving DecidableEq, Repr

/-- UserProfile dataclass from backend/src/utils/job_matcher.py. -/
structure UserProfile where
  skills : List String
  experience_years : Int
  preferred_technologies : List String
  preferred_roles : List String
  location_preferences : List String
  salary_min : Rat
  salary_max : Rat
deriving DecidableEq, Repr

/-! ## JobMatcher: backend/src/utils/job_matcher.py -/

/-- The skill_synonyms table built in JobMatcher.__init__. -/
def skill_synonyms : List (String × List String) :=
  [("python", ["python", "py", "django", "flask", "fastapi"]),
   ("javascript", ["javascript", "js", "node.js", "nodejs", "react", "vue", "angular"]),
   ("java", ["java", "spring", "springboot"]),
   ("docker", ["docker", "containers", "containerization"]),
   ("kubernetes", ["kubernetes", "k8s", "orchestration"]),
   ("aws", ["aws", "amazon web services", "ec2", "s3", "lambda"]),
   ("sql", ["sql", "mysql", "postgresql", "postgres", "database"]),
   ("machine learning", ["ml", "machine learning", "ai", "artificial intelligence"]),
   ("devops", ["devops", "ci/cd", "jenkins", "gitlab"]),
   ("git", ["git", "github", "gitlab", "version control"])]

/-- self.skill_synonyms.get(skill.lower(), [skill.lower()]). -/
def synonymsFor (skill : String) : List String :=
  match skill_synonyms.find? (fun p => p.1 = lowerStr skill) with
  | some p => p.2
  | none => [lowerStr skill]

/-- The lowercased text searched by the skills matcher:
f-string of title, description and requirements joined by spaces. -/
def jobText (job : Job) : String :=
  lowerStr (job.title ++ " " ++ job.description ++ " " ++ job.requirements)

/-- JobMatcher._calculate_skills_match: fraction of profile skills with
some synonym occurring in the job text, scaled to 100; guarded to 0
when the profile has no skills. -/
def calculate_skills_match (job : Job) (p : UserProfile) : Rat :=
  let text := jobText job
  let matched := (p.skills.filter
    (fun sk => (synonymsFor sk).any (fun v => strHasSub text v))).length
  let total := p.skills.length
  if total > 0 then (matched : Rat) / (total : Rat) * 100 else 0

/-- The loop body of JobMatcher._calculate_title_match over
preferred_roles: the first role whose words are all contained in the
title returns 100; otherwise the first role with any contained word
returns proportional credit and stops the scan. -/
def titleRoleScan (job_title : String) : List String → Option Rat
  | [] => none
  | role :: rest =>
    let role_words := pySplitWs (lowerStr role)
    if role_words.all (fun w => strHasSub job_title w) then some 100
    else
      let matching := (role_words.filter (fun w => strHasSub job_title w)).length
      if matching > 0 then some ((matching : Rat) / (role_words.length : Rat) * 80)
      else titleRoleScan job_title rest

/-- generic_matches list from _calculate_title_match. -/
def generic_matches : List String :=
  ["developer", "engineer", "programmer", "analyst"]

/-- JobMatcher._calculate_title_match. -/
def calculate_title_match (job : Job) (p : UserProfile) : Rat :=
  let job_title := lowerStr job.title
  match titleRoleScan job_title p.preferred_roles with
  | some v => v
  | none =>
    if generic_matches.any (fun m => strHasSub job_title m) then 50 else 20

/-- acceptable_locations list from _calculate_location_match. -/
def acceptable_locations : List String :=
  ["sp", "são paulo", "brasil", "brazil"]

/-- JobMatcher._calculate_location_match. -/
def calculate_location_match (job : Job) (p : UserProfile) : Rat :=
  if job.location = "" then 50
  else
    let job_location := lowerStr job.location
    if ["remote", "remoto", "home office"].any (fun r => strHasSub job_location r) then
      100
    else if p.location_preferences.any
        (fun pref => strHasSub job_location (lowerStr pref)) then 90
    else if acceptable_locations.any (fun l => strHasSub job_location l) then 70
    else 30

/-- Maximal runs of characters matching the regex class [\d.], as
re.findall produces on the salary text. -/
def numRunsAux : List Char → List Char → List (List Char)
  | [], cur => if cur.isEmpty then [] else [cur.reverse]
  | c :: t, cur =>
    if c.isDigit || c = '.' then numRunsAux t (c :: cur)
    else if cur.isEmpty then numRunsAux t cur
    else cur.reverse :: numRunsAux t []

/-- re.findall of the pattern [\d.]+ over a string. -/
def numRuns (s : String) : List (List Char) :=
  numRunsAux s.toList []

/-- Python float() applied to a token made of digits and dots: it
succeeds exactly when the token holds at most one dot and at least one
digit, and then denotes the usual decimal value. -/
def parseFloatTok (tok : List Char) : Option Rat :=
  if (tok.filter (fun c => c = '.')).length ≤ 1 && tok.any Char.isDigit then
    let ip := tok.takeWhile (fun c => c ≠ '.')
    let frac := (tok.dropWhile (fun c => c ≠ '.')).drop 1
    some ((digitsVal ip : Rat) + (digitsVal frac : Rat) / ((10 ^ frac.length : Nat) : Rat))
  else none

/-- Parses every salary token; none when any single float() call would
raise, mirroring the exception escaping the max(...) generator. -/
def parseAllToks : List (List Char) → Option (List Rat)
  | [] => some []
  | t :: ts =>
    match parseFloatTok t, parseAllToks ts with
    | some v, some vs => some (v :: vs)
    | _, _ => none

/-- JobMatcher._calculate_salary_match: neutral 50 when the salary text
is missing, empty, has no numeric token or fails to parse; otherwise
the maximum token value, scaled by 1000 when it is below 100, is
placed against the profile band. -/
def calculate_salary_match (salary : Option String) (p : UserProfile) : Rat :=
  match salary with
  | none => 50
  | some s =>
    if s.isEmpty then 50
    else
      let toks := numRuns (pyReplaceChar s ',' '.')
      if toks.isEmpty then 50
      else
        match parseAllToks toks with
        | none => 50
        | some [] => 50
        | some (v :: vs) =>
          let max_salary := vs.foldl max v
          let m := if max_salary < 100 then max_salary * 1000 else max_salary
          if p.salary_min ≤ m ∧ m ≤ p.salary_max then 100
          else if p.salary_min ≤ m then 80
          else 30

/-- tech_companies list from _calculate_company_preference. -/
def tech_companies : List String :=
  ["google", "microsoft", "amazon", "meta", "apple", "netflix",
   "uber", "airbnb", "spotify", "slack", "github", "gitlab",
   "nubank", "stone", "mercadolivre", "ifood", "magazine luiza"]

/-- startup_indicators list from _calculate_company_preference. -/
def startup_indicators : List String :=
  ["startup", "fintech", "tech", "software", "digital"]

/-- JobMatcher._calculate_company_preference. -/
def calculate_company_preference (job : Job) : Rat :=
  if job.company = "" then 50
  else
    let company_name := lowerStr job.company
    if tech_companies.any (fun c => strHasSub company_name c) then 90
    else if startup_indicators.any (fun c => strHasSub company_name c) then 75
    else 60

/-- The fixed weights dictionary of JobMatcher.__init__. -/
def weight_skills : Rat := 2/5
def weight_title : Rat := 1/4
def weight_location : Rat := 3/20
def weight_salary : Rat := 1/10
def weight_company : Rat := 1/10

/-- JobMatcher.calculate_match_score happy path: weighted sum of the
five sub-scores, clamped to [0, 100] and rounded to one decimal. -/
def calculate_match_score (job : Job) (p : UserProfile) : Rat :=
  let final :=
    calculate_skills_match job p * weight_skills +
    calculate_title_match job p * weight_title +
    calculate_location_match job p * weight_location +
    calculate_salary_match job.salary p * weight_salary +
    calculate_company_preference job * weight_company
  pyRound1 (max 0 (min 100 final))

/-- Exceptions observable by the top-level try of
calculate_match_score. -/
inductive PyError
  | attributeError
  | valueError
  | other
deriving DecidableEq, Repr

instance {e a : Type} [DecidableEq e] [DecidableEq a] : DecidableEq (Except e a) := fun x y =>
  match x, y with
  | Except.ok v, Except.ok w => decidable_of_iff (v = w) (by simp)
  | Except.error v, Except.error w => decidable_of_iff (v = w) (by simp)
  | Except.ok _, Except.error _ => isFalse (by simp)
  | Except.error _, Except.ok _ => isFalse (by simp)

/-- The except handler of calculate_match_score (lines 146-148): any
error raised by the body is swallowed and 0.0 is returned. -/
def match_score_or_zero (body : Except PyError Rat) : Rat :=
  match body with
  | Except.ok v => v
  | Except.error _ => 0

/-! ## Application lifecycle: backend/src/models/application.py -/

/-- ApplicationStatus enum. -/
inductive ApplicationStatus
  | pending
  | sent
  | delivered
  | read
  | responded
  | rejected
  | interview_scheduled
  | offer_received
  | accepted
  | failed
deriving DecidableEq, Repr

/-- ApplicationMethod enum. -/
inductive ApplicationMethod
  | email
  | linkedin
  | company_website
  | x_twitter
  | manual
deriving DecidableEq, Repr

/-- The Application dataclass, with the dataclass defaults. -/
structure Application where
  id : Option String := none
  job_id : String := ""
  method : ApplicationMethod := ApplicationMethod.email
  status : ApplicationStatus := ApplicationStatus.pending
  recipient_email : Option String := none
  subject : String := ""
  message_body : String := ""
  cover_letter : String := ""
  resume_sent : Bool := false
  portfolio_sent : Bool := false
  cover_letter_sent : Bool := false
  attachments : List String := []
  created_date : DateTime := ⟨2025, 1, 1, 0⟩
  sent_date : Option DateTime := none
  delivered_date : Option DateTime := none
  read_date : Option DateTime := none
  response_date : Option DateTime := none
  response_received : Bool := false
  response_content : Option String := none
  response_type : Option String := none
  follow_up_count : Nat := 0
  last_follow_up_date : Option DateTime := none
  next_follow_up_date : Option DateTime := none
  automated : Bool := true
  match_score_at_application : Option Rat := none
  notes : String := ""
  tags : List String := []
deriving DecidableEq, Repr

/-- A freshly constructed pending attempt: only identity and creation
time are supplied, every other field keeps its dataclass default. -/
def freshApplication (id : String) (job_id : String) (created : DateTime) : Application :=
  { id := some id, job_id := job_id, created_date := created }

/-- Application.mark_as_sent: datetime.now() is passed explicitly; the
recipient is only overwritten by a truthy (non-empty) email. -/
def mark_as_sent (now : DateTime) (email : Option String) (a : Application) : Application :=
  { a with
    status := ApplicationStatus.sent
    sent_date := some now
    recipient_email :=
      match email with
      | some e => if e.isEmpty then a.recipient_email else some e
      | none => a.recipient_email }

/-- Application.mark_as_delivered. -/
def mark_as_delivered (now : DateTime) (a : Application) : Application :=
  { a with status := ApplicationStatus.delivered, delivered_date := some now }

/-- Application.mark_as_read. -/
def mark_as_read (now : DateTime) (a : Application) : Application :=
  { a with status := ApplicationStatus.read, read_date := some now }

/-- Application.add_response. -/
def add_response (now : DateTime) (content : String) (rtype : String)
    (a : Application) : Application :=
  { a with
    response_received := true
    response_content := some content
    response_type := some rtype
    response_date := some now
    status := ApplicationStatus.responded }

/-- One lifecycle method invocation, with its call time. -/
inductive LifecycleOp
  | markSent (now : DateTime) (email : Option String)
  | markDelivered (now : DateTime)
  | markRead (now : DateTime)
  | addResponse (now : DateTime) (content rtype : String)
deriving DecidableEq, Repr

/-- Dispatch of one lifecycle method. -/
def applyOp (a : Application) : LifecycleOp → Application
  | LifecycleOp.markSent now email => mark_as_sent now email a
  | LifecycleOp.markDelivered now => mark_as_delivered now a
  | LifecycleOp.markRead now => mark_as_read now a
  | LifecycleOp.addResponse now content rtype => add_response now content rtype a

/-- A sequence of lifecycle method invocations. -/
def applyOps (a : Application) (ops : List LifecycleOp) : Application :=
  ops.foldl applyOp a

/-! ## Store: src/src/models/database.py -/

/-- JobSource.value strings. -/
def JobSource.value : JobSource → String
  | JobSource.linkedin => "linkedin"
  | JobSource.x_twitter => "x_twitter"
  | JobSource.manual => "manual"

/-- JobStatus.value strings. -/
def JobStatus.value : JobStatus → String
  | JobStatus.new => "new"
  | JobStatus.applied => "applied"
  | JobStatus.rejected => "rejected"
  | JobStatus.interview => "interview"
  | JobStatus.offer => "offer"
  | JobStatus.archived => "archived"

/-- A row of the jobs table: the serialized job dictionary from
Job.to_dict (enums as their value strings, dates as isoformat order)
plus the created_at / updated_at columns managed by save_job. -/
structure JobRow where
  id : Option String
  title : String
  company : String
  location : String
  description : String
  requirements : String
  salary_min : Option Rat
  salary_max : Option Rat
  salary_currency : String
  url : String
  contact_email : Option String
  source : String
  status : String
  remote_ok : Bool
  contract_type : String
  required_skills : List String
  nice_to_have_skills : List String
  match_score : Option Rat
  posted_date : Option DateTime
  found_date : DateTime
  applied_date : Option DateTime
  tags : List String
  experience_level : String
  created_at : DateTime
  updated_at : DateTime
deriving DecidableEq, Repr

/-- The row content carrying exactly the Job.to_dict fields of a job,
with the given created_at and updated_at column values. -/
def rowOfJob (j : Job) (created updated : DateTime) : JobRow :=
  { id := j.id
    title := j.title
    company := j.company
    location := j.location
    description := j.description
    requirements := j.requirements
    salary_min := j.salary_min
    salary_max := j.salary_max
    salary_currency := j.salary_currency
    url := j.url
    contact_email := j.contact_email
    source := j.source.value
    status := j.status.value
    remote_ok := j.remote_ok
    contract_type := j.contract_type
    required_skills := j.required_skills
    nice_to_have_skills := j.nice_to_have_skills
    match_score := j.match_score
    posted_date := j.posted_date
    found_date := j.found_date
    applied_date := j.applied_date
    tags := j.tags
    experience_level := j.experience_level
    created_at := created
    updated_at := updated }

/-- Database.save_job: keyed on the id column.  When a row with the
job's id exists, every dictionary field of that row is overwritten and
updated_at is stamped; otherwise a fresh row is inserted with
created_at = updated_at = now. -/
def save_job (now : DateTime) (j : Job) (jobs : List JobRow) : List JobRow :=
  if jobs.any (fun r => r.id = j.id) then
    jobs.map (fun r => if r.id = j.id then rowOfJob j r.created_at now else r)
  else
    jobs ++ [rowOfJob j now now]

/-- Database.job_exists: SELECT 1 FROM jobs WHERE url = ?. -/
def job_exists (url : String) (jobs : List JobRow) : Bool :=
  jobs.any (fun r => r.url = url)

/-- Modelled from the spec: Database.update_job_match_score is invoked
by JobHunterDaemon._process_jobs but its definition (the backend
database module) is not among the source files; per the Store contract
it merges the freshly computed score into the posting row with the
given id, touching no other column. -/
def update_job_match_score (job_id : Option String) (score : Rat)
    (jobs : List JobRow) : List JobRow :=
  jobs.map (fun r => if r.id = job_id then { r with match_score := some score } else r)

/-- The effect of one iteration of JobHunterDaemon._process_jobs on
the jobs table: a posting whose url already exists in the store is
skipped entirely; otherwise it is saved and its match score is
computed and persisted.  The remaining statements of the loop body
write only the applications table and the daemon counters. -/
def process_job_store (now : DateTime) (p : UserProfile)
    (jobs : List JobRow) (job : Job) : List JobRow :=
  if job_exists job.url jobs then jobs
  else
    update_job_match_score job.id (calculate_match_score job p)
      (save_job now job jobs)

/-- JobHunterDaemon._process_jobs folded over a batch of search
results, restricted to its effect on the jobs table. -/
def process_jobs_store (now : DateTime) (p : UserProfile)
    (jobs : List JobRow) (batch : List Job) : List JobRow :=
  batch.foldl (process_job_store now p) jobs

/-- A row of the applications table: the serialized application plus
the created_at / updated_at columns managed by save_application. -/
structure AppRow where
  app : Application
  created_at : DateTime
  updated_at : DateTime
deriving DecidableEq, Repr

/-- Database.save_application: keyed on the id column, update when a
row with the application's id exists, insert otherwise. -/
def save_application (now : DateTime) (a : Application)
    (apps : List AppRow) : List AppRow :=
  if apps.any (fun r => r.app.id = a.id) then
    apps.map (fun r => if r.app.id = a.id then
      { app := a, created_at := r.created_at, updated_at := now } else r)
  else
    apps ++ [{ app := a, created_at := now, updated_at := now }]

/-! ## Daemon quota and outreach: backend/src/bot/job_hunter_daemon.py -/

/-- The DaemonConfig dataclass. -/
structure DaemonConfig where
  linkedin_email : String
  linkedin_password : String
  x_username : String
  x_password : String
  keywords : List String
  location : String
  experience_level : String
  job_type : String
  auto_apply : Bool
  min_match_score : Rat
  max_applications_per_day : Nat
  search_interval_hours : Nat
  search_times : List String
  enable_email_notifications : Bool
  enable_telegram_notifications : Bool
  enable_whatsapp_notifications : Bool
  headless_mode : Bool
  test_mode : Bool
deriving DecidableEq, Repr

/-- The stats dictionary owned by the daemon. -/
structure DaemonStats where
  total_jobs_found : Nat
  total_applications_sent : Nat
  applications_today : Nat
  last_search_time : Option DateTime
  uptime_start : Option DateTime
deriving DecidableEq, Repr

/-- JobHunterDaemon._should_apply, with the job's match score (set by
the processing loop just before the call) and the result of the
application_exists store lookup passed in. -/
def should_apply (cfg : DaemonConfig) (score : Rat)
    (applications_today : Nat) (application_already_exists : Bool) : Bool :=
  if !cfg.auto_apply then false
  else if score < cfg.min_match_score then false
  else if applications_today ≥ cfg.max_applications_per_day then false
  else if application_already_exists then false
  else true

/-- JobHunterDaemon._reset_daily_application_count: sets the daily
counter to zero whatever its prior value. -/
def reset_daily_application_count (_applications_today : Nat) : Nat := 0

/-- The observable outcome of one posting inside a processing cycle:
its score, whether an attempt already exists for it, and whether the
whole send-and-persist body of _apply_to_job succeeds. -/
structure JobOutcome where
  score : Rat
  already_applied : Bool
  send_ok : Bool
deriving DecidableEq, Repr

/-- The effect of one _process_jobs iteration on the daily counter:
the counter moves, by exactly one, only when _should_apply approves
the posting and _apply_to_job returns success (the line
stats[applications_today] += 1). -/
def quota_step (cfg : DaemonConfig) (counter : Nat) (ev : JobOutcome) : Nat :=
  if should_apply cfg ev.score counter ev.already_applied && ev.send_ok then
    counter + 1
  else counter

/-- The daily counter after a sequence of posting outcomes. -/
def run_day (cfg : DaemonConfig) (evs : List JobOutcome) (c0 : Nat) : Nat :=
  evs.foldl (quota_step cfg) c0

/-- The field names accepted by the Application dataclass constructor
(its keyword arguments). -/
def application_ctor_field_names : List String :=
  ["id", "job_id", "method", "status", "recipient_email", "subject",
   "message_body", "cover_letter", "resume_sent", "portfolio_sent",
   "cover_letter_sent", "attachments", "created_date", "sent_date",
   "delivered_date", "read_date", "response_date", "response_received",
   "response_content", "response_type", "follow_up_count",
   "last_follow_up_date", "next_follow_up_date", "automated",
   "match_score_at_application", "notes", "tags"]

/-- The keyword arguments passed to Application(...) inside
JobHunterDaemon._apply_to_job. -/
def apply_to_job_ctor_kwargs : List String :=
  ["job_url", "status", "sent_at", "email_subject", "response_received"]

/-- A Python dataclass constructor accepts a call exactly when every
keyword argument names a declared field; otherwise it raises
TypeError. -/
def ctor_kwargs_accepted : Bool :=
  apply_to_job_ctor_kwargs.all (fun k => application_ctor_field_names.contains k)

/-- What the external collaborator send does for a given posting. -/
inductive SendOutcome
  | succeeded
  | failed
  | raised
deriving DecidableEq, Repr

/-- JobHunterDaemon._apply_to_job: the whole body runs under a
try/except returning False.  On a send failure it logs and returns
False, persisting nothing.  On send success it constructs
Application(job_url=..., status=..., sent_at=..., email_subject=...,
response_received=...); when the constructor accepts those keywords
the attempt would be persisted and both counters incremented, but the
dataclass rejects the unknown keywords with TypeError, which the
except swallows. -/
def apply_to_job (outcome : SendOutcome) (now : DateTime)
    (stats : DaemonStats) (apps : List AppRow) :
    DaemonStats × List AppRow × Bool :=
  match outcome with
  | SendOutcome.raised => (stats, apps, false)
  | SendOutcome.failed => (stats, apps, false)
  | SendOutcome.succeeded =>
    if ctor_kwargs_accepted then
      let app : Application :=
        { status := ApplicationStatus.sent
          sent_date := some now
          response_received := false }
      ({ stats with
          applications_today := stats.applications_today + 1
          total_applications_sent := stats.total_applications_sent + 1 },
        save_application now app apps, true)
    else (stats, apps, false)

/-! ## Retention sweep: Database.cleanup_old_jobs -/

/-- Leap year rule used by the Python datetime module. -/
def is_leap_year (y : Nat) : Bool :=
  y % 4 = 0 && (y % 100 ≠ 0 || y % 400 = 0)

/-- Days in a month, as validated by datetime.replace. -/
def days_in_month (y m : Nat) : Nat :=
  if m = 2 then (if is_leap_year y then 29 else 28)
  else if m = 4 || m = 6 || m = 9 || m = 11 then 30
  else 31

/-- datetime.now().replace(day = d): raises ValueError unless d is a
valid day-of-month for the current month. -/
def datetime_replace_day (dt : DateTime) (d : Int) : Except PyError DateTime :=
  if 1 ≤ d ∧ d ≤ (days_in_month dt.year dt.month : Int) then
    Except.ok { dt with day := d.toNat }
  else Except.error PyError.valueError

/-- The deletion filter of cleanup_old_jobs:
found_date < cutoff AND status = archived. -/
def cleanup_doomed (cutoff : DateTime) (r : JobRow) : Bool :=
  DateTime.lt r.found_date cutoff && r.status = "archived"

/-- Database.cleanup_old_jobs: the cutoff is the current time with its
day-of-month field replaced by day - days (ValueError when out of
range for the month); applications of doomed jobs are deleted first,
then the doomed jobs, and the number of deleted job rows is
returned. -/
def cleanup_old_jobs (now : DateTime) (days : Nat)
    (jobs : List JobRow) (apps : List AppRow) :
    Except PyError (List JobRow × List AppRow × Nat) :=
  match datetime_replace_day now ((now.day : Int) - (days : Int)) with
  | Except.error e => Except.error e
  | Except.ok cutoff =>
    let doomedIds := ((jobs.filter (cleanup_doomed cutoff)).map (fun r => r.id))
    let apps2 := apps.filter (fun a => !(doomedIds.contains (some a.app.job_id)))
    let remaining := jobs.filter (fun r => !(cleanup_doomed cutoff r))
    Except.ok (remaining, apps2, (jobs.filter (cleanup_doomed cutoff)).length)

/-! ## Job identity: Job.__post_init__ uses md5 over the utf-8 bytes
of the string title_company_url and keeps the first 12 hex digits. -/

/-- UTF-8 encoding of one code point, as bytes (each < 256). -/
def charUtf8 (c : Char) : List Nat :=
  let n := c.toNat
  if n < 0x80 then [n]
  else if n < 0x800 then [0xC0 + n / 0x40, 0x80 + n % 0x40]
  else if n < 0x10000 then
    [0xE0 + n / 0x1000, 0x80 + (n / 0x40) % 0x40, 0x80 + n % 0x40]
  else
    [0xF0 + n / 0x40000, 0x80 + (n / 0x1000) % 0x40,
     0x80 + (n / 0x40) % 0x40, 0x80 + n % 0x40]

/-- Python str.encode(): utf-8 bytes of a string. -/
def utf8Bytes (s : String) : List Nat :=
  (s.toList.map charUtf8).flatten

/-- 2 ^ 32, the word modulus of md5. -/
def M32 : Nat := 2 ^ 32

/-- 32-bit addition. -/
def add32 (a b : Nat) : Nat := (a + b) % M32

/-- 32-bit complement. -/
def not32 (a : Nat) : Nat := (M32 - 1) - a

/-- 32-bit left rotation of a word already reduced mod 2 ^ 32. -/
def rotl32 (x s : Nat) : Nat :=
  ((x <<< s) % M32) ||| (x >>> (32 - s))

/-- Per-round left-rotation amounts of md5. -/
def md5_s : List Nat :=
  [7, 12, 17, 22, 7, 12, 17, 22, 7, 12, 17, 22, 7, 12, 17, 22,
   5, 9, 14, 20, 5, 9, 14, 20, 5, 9, 14, 20, 5, 9, 14, 20,
   4, 11, 16, 23, 4, 11, 16, 23, 4, 11, 16, 23, 4, 11, 16, 23,
   6, 10, 15, 21, 6, 10, 15, 21, 6, 10, 15, 21, 6, 10, 15, 21]

/-- The 64 additive constants of md5 (integer parts of
abs(sin(i + 1)) * 2 ^ 32). -/
def md5_k : List Nat :=
  [0xd76aa478, 0xe8c7b756, 0x242070db, 0xc1bdceee,
   0xf57c0faf, 0x4787c62a, 0xa8304613, 0xfd469501,
   0x698098d8, 0x8b44f7af, 0xffff5bb1, 0x895cd7be,
   0x6b901122, 0xfd987193, 0xa679438e, 0x49b40821,
   0xf61e2562, 0xc040b340, 0x265e5a51, 0xe9b6c7aa,
   0xd62f105d, 0x02441453, 0xd8a1e681, 0xe7d3fbc8,
   0x21e1cde6, 0xc33707d6, 0xf4d50d87, 0x455a14ed,
   0xa9e3e905, 0xfcefa3f8, 0x676f02d9, 0x8d2a4c8a,
   0xfffa3942, 0x8771f681, 0x6d9d6122, 0xfde5380c,
   0xa4beea44, 0x4bdecfa9, 0xf6bb4b60, 0xbebfbc70,
   0x289b7ec6, 0xeaa127fa, 0xd4ef3085, 0x04881d05,
   0xd9d4d039, 0xe6db99e5, 0x1fa27cf8, 0xc4ac5665,
   0xf4292244, 0x432aff97, 0xab9423a7, 0xfc93a039,
   0x655b59c3, 0x8f0ccc92, 0xffeff47d, 0x85845dd1,
   0x6fa87e4f, 0xfe2ce6e0, 0xa3014314, 0x4e0811a1,
   0xf7537e82, 0xbd3af235, 0x2ad7d2bb, 0xeb86d391]

/-- Little-endian byte decomposition of a number. -/
def leBytes (n count : Nat) : List Nat :=
  (List.range count).map (fun i => (n >>> (8 * i)) % 256)

/-- Value of up to four little-endian bytes as a word. -/
def leWord (bs : List Nat) : Nat :=
  bs.foldr (fun b acc => acc * 256 + b) 0

/-- md5 padding: a 0x80 byte, zeros to 56 mod 64, then the bit length
as eight little-endian bytes. -/
def md5Pad (msg : List Nat) : List Nat :=
  let len := msg.length
  let zeros := (120 - (len + 1) % 64) % 64
  msg ++ [0x80] ++ List.replicate zeros 0 ++ leBytes ((8 * len) % 2 ^ 64) 8

/-- Splits a byte list into 64-byte blocks; the fuel argument only
bounds the recursion depth and any value at least the list length
yields the same result. -/
def chunks64Fuel : Nat → List Nat → List (List Nat)
  | 0, _ => []
  | _ + 1, [] => []
  | fuel + 1, c :: t => (c :: t).take 64 :: chunks64Fuel fuel ((c :: t).drop 64)

/-- Splits a byte list into 64-byte blocks. -/
def chunks64 (l : List Nat) : List (List Nat) :=
  chunks64Fuel l.length l

/-- One of the 64 md5 rounds on the state (a, b, c, d), given the 16
message words of the current block. -/
def md5Round (m : List Nat) (st : Nat × Nat × Nat × Nat) (i : Nat) :
    Nat × Nat × Nat × Nat :=
  let a := st.1
  let b := st.2.1
  let c := st.2.2.1
  let d := st.2.2.2
  let f :=
    if i < 16 then (b &&& c) ||| (not32 b &&& d)
    else if i < 32 then (d &&& b) ||| (not32 d &&& c)
    else if i < 48 then b ^^^ c ^^^ d
    else c ^^^ (b ||| not32 d)
  let g :=
    if i < 16 then i
    else if i < 32 then (5 * i + 1) % 16
    else if i < 48 then (3 * i + 5) % 16
    else (7 * i) % 16
  let f2 := (f + a + md5_k.getD i 0 + m.getD g 0) % M32
  (d, add32 b (rotl32 f2 (md5_s.getD i 0)), b, c)

/-- Digests one 64-byte block into the running state. -/
def md5Block (st : Nat × Nat × Nat × Nat) (block : List Nat) :
    Nat × Nat × Nat × Nat :=
  let m := (List.range 16).map (fun i => leWord ((block.drop (4 * i)).take 4))
  let r := (List.range 64).foldl (md5Round m) st
  (add32 st.1 r.1, add32 st.2.1 r.2.1, add32 st.2.2.1 r.2.2.1,
   add32 st.2.2.2 r.2.2.2)

/-- md5 digest bytes of a byte message. -/
def md5Bytes (msg : List Nat) : List Nat :=
  let st := (chunks64 (md5Pad msg)).foldl md5Block
    (0x67452301, 0xefcdab89, 0x98badcfe, 0x10325476)
  leBytes st.1 4 ++ leBytes st.2.1 4 ++ leBytes st.2.2.1 4 ++ leBytes st.2.2.2 4

/-- Lowercase hexadecimal digit. -/
def hexDigit (n : Nat) : Char :=
  if n < 10 then Char.ofNat (48 + n) else Char.ofNat (87 + n)

/-- hashlib hexdigest of a byte message. -/
def md5Hexdigest (msg : List Nat) : String :=
  String.mk (((md5Bytes msg).map (fun b => [hexDigit (b / 16), hexDigit (b % 16)])).flatten)

/-- The hash preimage built by Job.__post_init__:
f-string title_company_url. -/
def job_unique_string (j : Job) : String :=
  j.title ++ "_" ++ j.company ++ "_" ++ j.url

/-- The id generated by Job.__post_init__: first 12 hex digits of the
md5 of the utf-8 encoded preimage. -/
def job_generated_id (j : Job) : String :=
  String.mk ((md5Hexdigest (utf8Bytes (job_unique_string j))).toList.take 12)

/-- Job.__post_init__: a job constructed with a falsy id (absent or
empty) receives the generated id; an explicit id is kept. -/
def job_post_init (j : Job) : Job :=
  match j.id with
  | none => { j with id := some (job_generated_id j) }
  | some s => if s.isEmpty then { j with id := some (job_generated_id j) } else j

/-! ## Helper lemmas -/

theorem ratFloor_le (q : Rat) : (Rat.floor q : Rat) ≤ q :=
  Rat.le_floor.mp le_rfl

theorem ratFloor_nonneg {q : Rat} (h : 0 ≤ q) : 0 ≤ Rat.floor q :=
  Rat.le_floor.mpr (by exact_mod_cast h)

theorem roundHalfEven_def (q : Rat) :
    roundHalfEven q =
      if q - (Rat.floor q : Rat) < 1/2 then Rat.floor q
      else if 1/2 < q - (Rat.floor q : Rat) then Rat.floor q + 1
      else if Rat.floor q % 2 = 0 then Rat.floor q else Rat.floor q + 1 := rfl

theorem roundHalfEven_nonneg {q : Rat} (h : 0 ≤ q) : 0 ≤ roundHalfEven q := by
  rw [roundHalfEven_def]
  have hf := ratFloor_nonneg h
  split_ifs <;> omega

theorem roundHalfEven_le {q : Rat} {N : Int} (h : q ≤ (N : Rat)) :
    roundHalfEven q ≤ N := by
  have hfl : Rat.floor q ≤ N := by
    by_contra hc
    push_neg at hc
    have hle : ((N + 1 : Int) : Rat) ≤ q := Rat.le_floor.mp (by omega)
    push_cast at hle
    linarith
  rw [roundHalfEven_def]
  split_ifs with h1 h2 h3
  · exact hfl
  · have hlt : Rat.floor q < N := by
      rcases lt_or_eq_of_le hfl with hc | hc
      · exact hc
      · exfalso
        subst hc
        have hq : q - (Rat.floor q : Rat) ≤ 0 := by linarith
        linarith
    omega
  · exact hfl
  · have hlt : Rat.floor q < N := by
      rcases lt_or_eq_of_le hfl with hc | hc
      · exact hc
      · exfalso
        subst hc
        have hq : q - (Rat.floor q : Rat) ≤ 0 := by linarith
        linarith
    omega

theorem pyRound1_bounds {q : Rat} (h0 : 0 ≤ q) (h100 : q ≤ 100) :
    0 ≤ pyRound1 q ∧ pyRound1 q ≤ 100 ∧ ∃ k : Int, pyRound1 q = (k : Rat) / 10 := by
  unfold pyRound1
  have hr0 : 0 ≤ roundHalfEven (q * 10) := roundHalfEven_nonneg (by positivity)
  have hr1000 : roundHalfEven (q * 10) ≤ (1000 : Int) := by
    apply roundHalfEven_le
    push_cast
    linarith
  refine ⟨by positivity, ?_, ⟨roundHalfEven (q * 10), rfl⟩⟩
  rw [div_le_iff₀ (by norm_num)]
  calc ((roundHalfEven (q * 10) : Rat)) ≤ (1000 : Rat) := by exact_mod_cast hr1000
  _ = 100 * 10 := by norm_num

/-! ## C3 -/

/-- C3: for every posting and every profile the match scorer returns a
value in the closed interval [0, 100] that is an integer number of
tenths (rounded to one decimal place); in particular this covers an
empty description, empty requirements, a missing location, and a
missing or unparsable salary, since the statement quantifies over all
jobs and profiles. -/
theorem C3_score_bounded (job : Job) (p : UserProfile) :
    0 ≤ calculate_match_score job p ∧ calculate_match_score job p ≤ 100 ∧
      ∃ k : Int, calculate_match_score job p = (k : Rat) / 10 := by
  unfold calculate_match_score
  apply pyRound1_bounds
  · exact le_max_left 0 _
  · exact max_le (by norm_num) (min_le_left 100 _)

/-! ## C10 -/

/-- C10: the scorer is total at its public interface: for a profile
with an empty skills list the skills sub-score is the guarded 0 (the
matched/total division is never reached), and the top-level try/except
of calculate_match_score turns any internal error into the fallback
0.0 while passing a computed value through unchanged. -/
theorem C10_total_scorer (job : Job) (p : UserProfile) (e : PyError) (v : Rat) :
    (p.skills = [] → calculate_skills_match job p = 0) ∧
      match_score_or_zero (Except.error e) = 0 ∧
      match_score_or_zero (Except.ok v) = v := by
  refine ⟨fun h => ?_, rfl, rfl⟩
  simp [calculate_skills_match, h]

/-- Witness for C10 at a concrete job and the empty-skills profile. -/
theorem C10_total_scorer_witness :
    calculate_skills_match { title := "dev" }
      ⟨[], 0, [], [], [], 0, 0⟩ = 0 ∧
      match_score_or_zero (Except.error PyError.attributeError) = 0 :=
  ⟨(C10_total_scorer { title := "dev" } ⟨[], 0, [], [], [], 0, 0⟩
      PyError.attributeError 0).1 rfl,
   (C10_total_scorer { title := "dev" } ⟨[], 0, [], [], [], 0, 0⟩
      PyError.attributeError 0).2.1⟩

/-! ## C2 -/

/-- C2: within one day the daily counter never exceeds the configured
maximum: starting from any value at most the maximum, any sequence of
per-posting outcomes keeps it at most the maximum; _should_apply
approves a send only when the counter is strictly below the maximum;
a fully successful send moves the counter by exactly one; and the
daily reset returns 0 whatever the prior value, also when run twice. -/
theorem C2_daily_quota (cfg : DaemonConfig) (evs : List JobOutcome) (c0 : Nat)
    (h0 : c0 ≤ cfg.max_applications_per_day) :
    run_day cfg evs c0 ≤ cfg.max_applications_per_day ∧
      (∀ (sc : Rat) (c : Nat) (al : Bool),
        should_apply cfg sc c al = true → c < cfg.max_applications_per_day) ∧
      (∀ (c : Nat) (ev : JobOutcome),
        should_apply cfg ev.score c ev.already_applied = true → ev.send_ok = true →
          quota_step cfg c ev = c + 1) ∧
      (∀ c : Nat, reset_daily_application_count c = 0) ∧
      reset_daily_application_count (reset_daily_application_count c0) = 0 := by
  have hgate : ∀ (sc : Rat) (c : Nat) (al : Bool),
      should_apply cfg sc c al = true → c < cfg.max_applications_per_day := by
    intro sc c al h
    unfold should_apply at h
    split_ifs at h with h1 h2 h3 h4
    · omega
  refine ⟨?_, hgate, ?_, fun _ => rfl, rfl⟩
  · induction evs generalizing c0 with
    | nil => exact h0
    | cons ev rest ih =>
      simp only [run_day, List.foldl_cons]
      apply ih
      unfold quota_step
      split
      · rename_i hcond
        rw [Bool.and_eq_true] at hcond
        have := hgate ev.score c0 ev.already_applied hcond.1
        omega
      · exact h0
  · intro c ev hsa hok
    unfold quota_step
    rw [hsa, hok]
    rfl

/-- Witness for C2 at a concrete configuration (maximum 2) and a day
with three approvable postings: the counter ends at the maximum. -/
theorem C2_daily_quota_witness :
    run_day
      ⟨"", "", "", "", [], "", "", "", true, 70, 2, 4, [], false, false, false, true, false⟩
      [⟨80, false, true⟩, ⟨90, false, true⟩, ⟨85, false, true⟩] 0 ≤ 2 ∧
      should_apply
        ⟨"", "", "", "", [], "", "", "", true, 70, 2, 4, [], false, false, false, true, false⟩
        80 1 false = true ∧ 1 < 2 :=
  ⟨(C2_daily_quota
      ⟨"", "", "", "", [], "", "", "", true, 70, 2, 4, [], false, false, false, true, false⟩
      [⟨80, false, true⟩, ⟨90, false, true⟩, ⟨85, false, true⟩] 0 (by decide)).1,
   by decide,
   (C2_daily_quota
      ⟨"", "", "", "", [], "", "", "", true, 70, 2, 4, [], false, false, false, true, false⟩
      [] 0 (by decide)).2.1 80 1 false (by decide)⟩

/-! ## C6 -/

/-- C6 counterexample: calling mark_as_delivered on a freshly created
pending attempt moves its state past pending while sent_date stays
null, so the claimed equivalence between a non-null sent_date and a
state past pending fails. -/
theorem C6_counterexample :
    ¬(((applyOps (freshApplication "a1" "j1" ⟨2025, 1, 1, 0⟩)
        [LifecycleOp.markDelivered ⟨2025, 1, 2, 0⟩]).sent_date ≠ none) ↔
      ((applyOps (freshApplication "a1" "j1" ⟨2025, 1, 1, 0⟩)
        [LifecycleOp.markDelivered ⟨2025, 1, 2, 0⟩]).status ≠
          ApplicationStatus.pending)) := by
  decide

/-- The two lifecycle facts that actually hold along every sequence of
lifecycle operations. -/
def LifecycleInv (a : Application) : Prop :=
  (a.sent_date ≠ none → a.status ≠ ApplicationStatus.pending) ∧
    (a.response_received = true → a.response_date ≠ none)

theorem applyOp_preserves_inv (a : Application) (op : LifecycleOp)
    (h : LifecycleInv a) : LifecycleInv (applyOp a op) := by
  obtain ⟨h1, h2⟩ := h
  cases op with
  | markSent now email =>
    exact ⟨fun _ => by simp [applyOp, mark_as_sent], fun hr => h2 hr⟩
  | markDelivered now =>
    exact ⟨fun _ => by simp [applyOp, mark_as_delivered], fun hr => h2 hr⟩
  | markRead now =>
    exact ⟨fun _ => by simp [applyOp, mark_as_read], fun hr => h2 hr⟩
  | addResponse now content rtype =>
    exact ⟨fun _ => by simp [applyOp, add_response], fun _ => by simp [applyOp, add_response]⟩

theorem applyOps_preserves_inv (a : Application) (ops : List LifecycleOp)
    (h : LifecycleInv a) : LifecycleInv (applyOps a ops) := by
  induction ops generalizing a with
  | nil => exact h
  | cons op rest ih =>
    exact ih (applyOp a op) (applyOp_preserves_inv a op h)

/-- C6 amended: along every sequence of lifecycle operations from a
freshly created pending attempt, a non-null sent_date implies the
state has progressed past pending (the converse fails: delivered,
read and responded are reachable without mark_as_sent), and
response_received implies a non-null response_date. -/
theorem C6_lifecycle_amended (id job_id : String) (t0 : DateTime)
    (ops : List LifecycleOp) :
    ((applyOps (freshApplication id job_id t0) ops).sent_date ≠ none →
      (applyOps (freshApplication id job_id t0) ops).status ≠
        ApplicationStatus.pending) ∧
      ((applyOps (freshApplication id job_id t0) ops).response_received = true →
        (applyOps (freshApplication id job_id t0) ops).response_date ≠ none) :=
  applyOps_preserves_inv (freshApplication id job_id t0) ops
    ⟨fun h => absurd rfl h, fun h => by simp [freshApplication] at h⟩

/-- Witness for C6 amended: after mark_as_sent the state is past
pending and a response carries its date. -/
theorem C6_lifecycle_amended_witness :
    ((applyOps (freshApplication "a2" "j2" ⟨2025, 1, 1, 0⟩)
      [LifecycleOp.markSent ⟨2025, 1, 2, 0⟩ none,
       LifecycleOp.addResponse ⟨2025, 1, 3, 0⟩ "ok" "positive"]).status ≠
        ApplicationStatus.pending) ∧
      ((applyOps (freshApplication "a2" "j2" ⟨2025, 1, 1, 0⟩)
        [LifecycleOp.markSent ⟨2025, 1, 2, 0⟩ none,
         LifecycleOp.addResponse ⟨2025, 1, 3, 0⟩ "ok" "positive"]).response_date ≠ none) :=
  ⟨(C6_lifecycle_amended "a2" "j2" ⟨2025, 1, 1, 0⟩
      [LifecycleOp.markSent ⟨2025, 1, 2, 0⟩ none,
       LifecycleOp.addResponse ⟨2025, 1, 3, 0⟩ "ok" "positive"]).1 (by decide),
   (C6_lifecycle_amended "a2" "j2" ⟨2025, 1, 1, 0⟩
      [LifecycleOp.markSent ⟨2025, 1, 2, 0⟩ none,
       LifecycleOp.addResponse ⟨2025, 1, 3, 0⟩ "ok" "positive"]).2 (by decide)⟩

/-! ## C7 -/

/-- C7: evaluation of _apply_to_job at the failing inputs.  The
Application constructor keywords used in the success branch are not
accepted by the dataclass, so the success branch raises TypeError
before persisting; the except handler returns False; and the failure
and exception branches persist nothing either: in every case the
stats and the applications store come back unchanged and no attempt
(sent or failed) is recorded. -/
theorem C7_apply_to_job_eval :
    ctor_kwargs_accepted = false ∧
      apply_to_job SendOutcome.succeeded ⟨2025, 6, 1, 0⟩
        ⟨0, 0, 0, none, none⟩ [] = (⟨0, 0, 0, none, none⟩, [], false) ∧
      apply_to_job SendOutcome.failed ⟨2025, 6, 1, 0⟩
        ⟨0, 0, 0, none, none⟩ [] = (⟨0, 0, 0, none, none⟩, [], false) ∧
      apply_to_job SendOutcome.raised ⟨2025, 6, 1, 0⟩
        ⟨0, 0, 0, none, none⟩ [] = (⟨0, 0, 0, none, none⟩, [], false) := by
  decide

/-! ## C4 -/

/-- The salary sub-score as the claim words it: every parsed value
below the threshold 100 is normalized by the 1000 scale first, then
the maximum of the normalized values is placed against the band
(within 100, above 80, below 30), with missing or unparsable salary
neutral at 50. -/
def salary_sub_score_claim (salary : Option String) (p : UserProfile) : Rat :=
  match salary with
  | none => 50
  | some s =>
    if s.isEmpty then 50
    else
      let toks := numRuns (pyReplaceChar s ',' '.')
      if toks.isEmpty then 50
      else
        match parseAllToks toks with
        | none => 50
        | some [] => 50
        | some (v :: vs) =>
          let w := if v < 100 then v * 1000 else v
          let ws := vs.map (fun x => if x < 100 then x * 1000 else x)
          let m := ws.foldl max w
          if p.salary_min ≤ m ∧ m ≤ p.salary_max then 100
          else if p.salary_max < m then 80
          else 30

/-- Whether every parsed salary value lies on the same side of the
100 threshold; on such inputs the order of normalization and maximum
is irrelevant. -/
def salary_same_side (salary : Option String) : Bool :=
  match salary with
  | none => true
  | some s =>
    match parseAllToks (numRuns (pyReplaceChar s ',' '.')) with
    | some vs => vs.all (fun v => v < 100) || vs.all (fun v => 100 ≤ v)
    | none => true

theorem foldl_max_lt {c v : Rat} {vs : List Rat} (hv : v < c)
    (hvs : ∀ x ∈ vs, x < c) : vs.foldl max v < c := by
  induction vs generalizing v with
  | nil => exact hv
  | cons x t ih =>
    simp only [List.foldl_cons]
    exact ih (max_lt hv (hvs x (by simp)))
      (fun y hy => hvs y (by simp [hy]))

theorem le_foldl_max {v : Rat} (vs : List Rat) : v ≤ vs.foldl max v := by
  induction vs generalizing v with
  | nil => exact le_rfl
  | cons x t ih =>
    simp only [List.foldl_cons]
    exact le_trans (le_max_left v x) (ih)

theorem foldl_max_map_mul {k : Rat} (hk : 0 ≤ k) (v : Rat) (vs : List Rat) :
    (vs.map (fun x => x * k)).foldl max (v * k) = (vs.foldl max v) * k := by
  induction vs generalizing v with
  | nil => rfl
  | cons x t ih =>
    simp only [List.map_cons, List.foldl_cons]
    rw [← max_mul_of_nonneg v x hk, ih]

/-- C4 counterexample: for the salary text holding the tokens 50 and
200 and the profile band [5000, 15000], the code takes the maximum
200 first and, as 200 is not below 100, never rescales, scoring 30
(below band); the claim's per-value normalization turns 50 into 50000
before the maximum and scores 80 (above band). -/
theorem C4_counterexample :
    calculate_salary_match (some "50 200") ⟨[], 0, [], [], [], 5000, 15000⟩ = 30 ∧
      salary_sub_score_claim (some "50 200") ⟨[], 0, [], [], [], 5000, 15000⟩ = 80 ∧
      (30 : Rat) ≠ 80 := by
  refine ⟨by with_unfolding_all decide, by with_unfolding_all decide, by norm_num⟩

/-- C4 amended: the code normalizes after taking the maximum: the
maximum parsed value alone is rescaled by 1000 exactly when it is
below 100.  On every input whose parsed values all lie on the same
side of the threshold, and for a well-formed profile band, this
agrees with the claim's per-value description (within band 100, above
80, below 30, missing or unparsable 50). -/
theorem C4_salary_amended (salary : Option String) (p : UserProfile)
    (hband : p.salary_min ≤ p.salary_max)
    (hside : salary_same_side salary = true) :
    calculate_salary_match salary p = salary_sub_score_claim salary p := by
  unfold calculate_salary_match salary_sub_score_claim
  cases salary with
  | none => rfl
  | some s =>
    by_cases hempty : s.isEmpty
    · simp [hempty]
    · simp only [hempty, Bool.false_eq_true, if_false]
      by_cases htoks : (numRuns (pyReplaceChar s ',' '.')).isEmpty
      · simp [htoks]
      · simp only [htoks, Bool.false_eq_true, if_false]
        cases hpar : parseAllToks (numRuns (pyReplaceChar s ',' '.')) with
        | none => rfl
        | some vs =>
          cases vs with
          | nil => rfl
          | cons v tail =>
            dsimp only
            replace hside :
                ((v :: tail).all (fun x => decide (x < 100)) ||
                  (v :: tail).all (fun x => decide (100 ≤ x))) = true := by
              simpa [salary_same_side, hpar] using hside
            have hmain :
                (if (tail.foldl max v) < 100 then (tail.foldl max v) * 1000
                  else (tail.foldl max v)) =
                ((tail.map (fun x => if x < 100 then x * 1000 else x)).foldl max
                  (if v < 100 then v * 1000 else v)) := by
              rcases Bool.or_eq_true _ _ |>.mp hside with hlo | hhi
              · have hv : v < 100 := by
                  have := List.all_eq_true.mp hlo v (by simp)
                  simpa using this
                have htail : ∀ x ∈ tail, x < 100 := by
                  intro x hx
                  have := List.all_eq_true.mp hlo x (by simp [hx])
                  simpa using this
                have hmax : tail.foldl max v < 100 := foldl_max_lt hv htail
                rw [if_pos hmax, if_pos hv]
                rw [List.map_congr_left (fun x hx => if_pos (htail x hx))]
                exact (foldl_max_map_mul (by norm_num) v tail).symm
              · have hv : (100 : Rat) ≤ v := by
                  have := List.all_eq_true.mp hhi v (by simp)
                  simpa using this
                have htail : ∀ x ∈ tail, (100 : Rat) ≤ x := by
                  intro x hx
                  have := List.all_eq_true.mp hhi x (by simp [hx])
                  simpa using this
                have hmax : ¬ tail.foldl max v < 100 :=
                  not_lt.mpr (le_trans hv (le_foldl_max tail))
                rw [if_neg hmax, if_neg (not_lt.mpr hv)]
                have hmapid :
                    List.map (fun x => if x < 100 then x * 1000 else x) tail = tail := by
                  have hcongr := List.map_congr_left
                    (fun x hx => if_neg (not_lt.mpr (htail x hx)) :
                      ∀ x ∈ tail, (if x < 100 then x * 1000 else x) = x)
                  simpa using hcongr
                rw [hmapid]
            rw [← hmain]
            set m := if (tail.foldl max v) < 100 then (tail.foldl max v) * 1000
              else (tail.foldl max v) with hm
            by_cases hin : p.salary_min ≤ m ∧ m ≤ p.salary_max
            · simp [hin]
            · simp only [hin, if_false]
              by_cases hge : p.salary_min ≤ m
              · have habove : p.salary_max < m := by
                  rcases not_and_or.mp hin with hc | hc
                  · exact absurd hge hc
                  · exact not_le.mp hc
                simp [hge, habove]
              · have hbelow : ¬ p.salary_max < m := by
                  push_neg at hge ⊢
                  linarith
                simp [hge, hbelow]

/-- Witness for C4 amended at the salary text 8k-12k (tokens 8 and
12, both below the threshold) and the band [8000, 15000]. -/
theorem C4_salary_amended_witness :
    (8000 : Rat) ≤ 15000 ∧
      salary_same_side (some "8k-12k") = true ∧
      calculate_salary_match (some "8k-12k") ⟨[], 0, [], [], [], 8000, 15000⟩ =
        salary_sub_score_claim (some "8k-12k") ⟨[], 0, [], [], [], 8000, 15000⟩ :=
  ⟨by norm_num, by with_unfolding_all decide,
    C4_salary_amended (some "8k-12k") ⟨[], 0, [], [], [], 8000, 15000⟩
      (by norm_num) (by with_unfolding_all decide)⟩

/-! ## C5 -/

/-- The lowercased word list of a preferred role. -/
def roleWords (role : String) : List String :=
  pySplitWs (lowerStr role)

/-- How many words of the role are contained in the job title. -/
def roleMatchCount (job_title role : String) : Nat :=
  ((roleWords role).filter (fun w => strHasSub job_title w)).length

/-- Whether every word of the role is contained in the job title. -/
def roleFullMatch (job_title role : String) : Bool :=
  (roleWords role).all (fun w => strHasSub job_title w)

/-- Whether the title loop passes over this role without returning:
no full match and not a single contained word. -/
def roleSkipped (job_title role : String) : Bool :=
  !(roleFullMatch job_title role) && roleMatchCount job_title role = 0

theorem titleRoleScan_cons (t role : String) (rest : List String) :
    titleRoleScan t (role :: rest) =
      if roleFullMatch t role = true then some 100
      else if 0 < roleMatchCount t role then
        some ((roleMatchCount t role : Rat) / ((roleWords role).length : Rat) * 80)
      else titleRoleScan t rest := rfl

theorem titleRoleScan_skip {t role : String} (rest : List String)
    (h : roleSkipped t role = true) :
    titleRoleScan t (role :: rest) = titleRoleScan t rest := by
  rw [titleRoleScan_cons]
  unfold roleSkipped at h
  rw [Bool.and_eq_true, Bool.not_eq_true'] at h
  rw [h.1]
  have hcount : roleMatchCount t role = 0 := by
    have := h.2
    simpa using this
  simp [hcount]

theorem titleRoleScan_all_skip {t : String} {roles : List String}
    (h : ∀ role ∈ roles, roleSkipped t role = true) :
    titleRoleScan t roles = none := by
  induction roles with
  | nil => rfl
  | cons role rest ih =>
    rw [titleRoleScan_skip rest (h role (by simp))]
    exact ih (fun r hr => h r (by simp [hr]))

theorem titleRoleScan_append_skip {t : String} {before : List String}
    (l : List String) (h : ∀ b ∈ before, roleSkipped t b = true) :
    titleRoleScan t (before ++ l) = titleRoleScan t l := by
  induction before with
  | nil => rfl
  | cons b rest ih =>
    rw [List.cons_append, titleRoleScan_skip (rest ++ l) (h b (by simp))]
    exact ih (fun r hr => h r (by simp [hr]))

theorem titleRoleScan_hit {t role : String} (rest : List String)
    (h : roleSkipped t role = false) :
    titleRoleScan t (role :: rest) =
      some (if roleFullMatch t role then (100 : Rat)
        else (roleMatchCount t role : Rat) / ((roleWords role).length : Rat) * 80) := by
  rw [titleRoleScan_cons]
  unfold roleSkipped at h
  by_cases hfull : roleFullMatch t role = true
  · simp [hfull]
  · rw [Bool.not_eq_true] at hfull
    rw [hfull] at h ⊢
    simp only [Bool.not_false, Bool.true_and] at h
    have hcount : 0 < roleMatchCount t role := by
      rcases Nat.eq_zero_or_pos (roleMatchCount t role) with hz | hp
      · rw [hz] at h
        simp at h
      · exact hp
    simp [hcount]

/-- The title sub-score as the claim words it: 100 when any preferred
role has all tokens contained in the title, otherwise proportional
credit for a role with partial overlap, otherwise 50 for a generic
keyword, otherwise the floor 20. -/
def title_sub_score_claim (job_title : String) (roles : List String) : Rat :=
  if roles.any (fun role => roleFullMatch job_title role) then 100
  else
    match roles.find? (fun role => 0 < roleMatchCount job_title role) with
    | some role =>
      (roleMatchCount job_title role : Rat) / ((roleWords role).length : Rat) * 80
    | none =>
      if generic_matches.any (fun m => strHasSub job_title m) then 50 else 20

/-- C5 counterexample: with preferred roles [backend developer,
python developer] and the title python developer, the second role is
fully contained in the title, so the claim demands 100; the code stops
at the first role because developer overlaps partially and returns
1 / 2 * 80 = 40. -/
theorem C5_counterexample :
    calculate_title_match { title := "Python Developer" }
      ⟨[], 0, [], ["backend developer", "python developer"], [], 0, 0⟩ = 40 ∧
      title_sub_score_claim (lowerStr "Python Developer")
        ["backend developer", "python developer"] = 100 ∧
      (40 : Rat) ≠ 100 :=
  ⟨by with_unfolding_all decide, by with_unfolding_all decide, by norm_num⟩

/-- C5 amended: the preferred roles are scanned in order and the scan
stops at the first role with any token overlap: if that role is fully
contained the sub-score is 100, otherwise it is the proportional
(matched / total) * 80 even when a later role would match fully; when
no role has any overlap, a generic keyword in the title yields 50 and
otherwise the floor is 20. -/
theorem C5_title_amended :
    (∀ (job : Job) (p : UserProfile) (before : List String) (r : String)
      (after : List String),
      p.preferred_roles = before ++ r :: after →
      (∀ b ∈ before, roleSkipped (lowerStr job.title) b = true) →
      roleSkipped (lowerStr job.title) r = false →
      calculate_title_match job p =
        (if roleFullMatch (lowerStr job.title) r then (100 : Rat)
         else (roleMatchCount (lowerStr job.title) r : Rat) /
           ((roleWords r).length : Rat) * 80)) ∧
    (∀ (job : Job) (p : UserProfile),
      (∀ role ∈ p.preferred_roles, roleSkipped (lowerStr job.title) role = true) →
      calculate_title_match job p =
        (if generic_matches.any (fun m => strHasSub (lowerStr job.title) m)
          then (50 : Rat) else 20)) := by
  constructor
  · intro job p before r after hroles hbefore hr
    unfold calculate_title_match
    dsimp only
    rw [hroles, titleRoleScan_append_skip (r :: after) hbefore,
      titleRoleScan_hit after hr]
  · intro job p hall
    unfold calculate_title_match
    dsimp only
    rw [titleRoleScan_all_skip hall]

/-- Witness for C5 amended: a single fully matched preferred role
scores 100. -/
theorem C5_title_amended_witness :
    calculate_title_match { title := "Developer" }
      ⟨[], 0, [], ["developer"], [], 0, 0⟩ =
      (if roleFullMatch (lowerStr "Developer") "developer" then (100 : Rat)
       else (roleMatchCount (lowerStr "Developer") "developer" : Rat) /
         ((roleWords "developer").length : Rat) * 80) :=
  C5_title_amended.1 { title := "Developer" } ⟨[], 0, [], ["developer"], [], 0, 0⟩
    [] "developer" [] rfl (fun b hb => absurd hb (List.not_mem_nil b))
    (by decide)

/-! ## C1 -/

theorem rowOfJob_id (j : Job) (c u : DateTime) : (rowOfJob j c u).id = j.id := rfl

theorem rowOfJob_url (j : Job) (c u : DateTime) : (rowOfJob j c u).url = j.url := rfl

/-- A sequence of Database.save_job calls, each with its call time. -/
def save_job_fold (entries : List (DateTime × Job)) (store : List JobRow) : List JobRow :=
  entries.foldl (fun st e => save_job e.1 e.2 st) store

theorem save_job_id_map (now : DateTime) (j : Job) (jobs : List JobRow) :
    (save_job now j jobs).map JobRow.id =
      if jobs.any (fun r => r.id = j.id) then jobs.map JobRow.id
      else jobs.map JobRow.id ++ [j.id] := by
  unfold save_job
  split
  · rename_i h
    rw [List.map_map]
    apply List.map_congr_left
    intro r _
    by_cases hc : r.id = j.id
    · simp [Function.comp, hc, rowOfJob]
    · simp [Function.comp, hc]
  · rename_i h
    rw [List.map_append]
    rfl

theorem save_job_nodup (now : DateTime) (j : Job) (jobs : List JobRow)
    (h : (jobs.map JobRow.id).Nodup) :
    ((save_job now j jobs).map JobRow.id).Nodup := by
  rw [save_job_id_map]
  split
  · exact h
  · rename_i hany
    rw [List.nodup_append]
    refine ⟨h, List.nodup_singleton _, ?_⟩
    intro x hx hx2
    rw [List.mem_singleton] at hx2
    subst hx2
    rw [List.mem_map] at hx
    obtain ⟨r, hr, hrid⟩ := hx
    apply hany
    rw [List.any_eq_true]
    exact ⟨r, hr, by simp [hrid]⟩

theorem countP_id_le_one_of_nodup (k : String) (jobs : List JobRow)
    (h : (jobs.map JobRow.id).Nodup) :
    jobs.countP (fun r => r.id = some k) ≤ 1 := by
  induction jobs with
  | nil => simp
  | cons r t ih =>
    rw [List.map_cons, List.nodup_cons] at h
    obtain ⟨hnotin, hnd⟩ := h
    rw [List.countP_cons]
    by_cases hc : r.id = some k
    · have ht : t.countP (fun r => decide (r.id = some k)) = 0 := by
        rw [List.countP_eq_zero]
        intro s hs
        simp only [decide_eq_true_eq]
        intro hsk
        exact hnotin (List.mem_map.mpr ⟨s, hs, hsk.trans hc.symm⟩)
      simp [hc, ht]
    · have := ih hnd
      simp only [hc, decide_eq_true_eq]
      simp [hc] at this ⊢
      omega

theorem save_job_countP (now : DateTime) (j : Job) (jobs : List JobRow)
    (k : String) (hk : j.id = some k) (hnd : (jobs.map JobRow.id).Nodup) :
    (save_job now j jobs).countP (fun r => r.id = some k) = 1 := by
  unfold save_job
  split
  · rename_i hany
    rw [List.countP_map]
    have heq : jobs.countP
        ((fun r => decide (r.id = some k)) ∘
          (fun r => if r.id = j.id then rowOfJob j r.created_at now else r)) =
        jobs.countP (fun r => decide (r.id = some k)) := by
      apply List.countP_congr
      intro r _
      by_cases hc : r.id = j.id
      · simp [Function.comp, hc, rowOfJob]
      · simp [Function.comp, hc]
    rw [heq]
    have hle := countP_id_le_one_of_nodup k jobs hnd
    have hpos : 0 < jobs.countP (fun r => decide (r.id = some k)) := by
      rw [List.any_eq_true] at hany
      obtain ⟨r, hr, hrid⟩ := hany
      rw [List.countP_pos_iff]
      refine ⟨r, hr, ?_⟩
      simp only [decide_eq_true_eq] at hrid ⊢
      rw [hrid, hk]
    omega
  · rename_i hany
    rw [List.countP_append]
    have h0 : jobs.countP (fun r => decide (r.id = some k)) = 0 := by
      rw [List.countP_eq_zero]
      intro r hr
      simp only [decide_eq_true_eq]
      intro hc
      apply hany
      rw [List.any_eq_true]
      exact ⟨r, hr, by simp [hc, hk]⟩
    rw [h0]
    simp [rowOfJob, hk]

theorem save_job_fields (now : DateTime) (j : Job) (jobs : List JobRow) :
    ∀ r ∈ save_job now j jobs, r.id = j.id →
      r.description = j.description ∧ r.status = j.status.value ∧
        r.match_score = j.match_score ∧ r.updated_at = now := by
  unfold save_job
  split
  · rename_i hany
    intro r hr hid
    rw [List.mem_map] at hr
    obtain ⟨s, hs, hmap⟩ := hr
    by_cases hc : s.id = j.id
    · rw [if_pos hc] at hmap
      subst hmap
      exact ⟨rfl, rfl, rfl, rfl⟩
    · rw [if_neg hc] at hmap
      subst hmap
      exact absurd hid hc
  · rename_i hany
    intro r hr hid
    rw [List.mem_append] at hr
    rcases hr with hin | hsingle
    · exfalso
      apply hany
      rw [List.any_eq_true]
      exact ⟨r, hin, by simp [hid]⟩
    · rw [List.mem_singleton] at hsingle
      subst hsingle
      exact ⟨rfl, rfl, rfl, rfl⟩

theorem save_job_fold_spec (k : String) (e0 : DateTime × Job)
    (entries : List (DateTime × Job)) (store : List JobRow)
    (hnd : (store.map JobRow.id).Nodup)
    (hall : ∀ e ∈ e0 :: entries, e.2.id = some k) :
    (save_job_fold (e0 :: entries) store).countP (fun r => r.id = some k) = 1 ∧
      ∀ r ∈ save_job_fold (e0 :: entries) store, r.id = some k →
        r.description = ((e0 :: entries).getLast (by simp)).2.description ∧
          r.status = ((e0 :: entries).getLast (by simp)).2.status.value ∧
          r.match_score = ((e0 :: entries).getLast (by simp)).2.match_score ∧
          r.updated_at = ((e0 :: entries).getLast (by simp)).1 := by
  induction entries generalizing e0 store with
  | nil =>
    have hk : e0.2.id = some k := hall e0 (by simp)
    refine ⟨save_job_countP e0.1 e0.2 store k hk hnd, ?_⟩
    intro r hr hid
    simp only [List.getLast_singleton]
    exact save_job_fields e0.1 e0.2 store r hr (by rw [hid, hk])
  | cons e1 rest ih =>
    have hstep : save_job_fold (e0 :: e1 :: rest) store =
        save_job_fold (e1 :: rest) (save_job e0.1 e0.2 store) := rfl
    have hnd2 := save_job_nodup e0.1 e0.2 store hnd
    have hall2 : ∀ e ∈ e1 :: rest, e.2.id = some k :=
      fun e he => hall e (by simp [he])
    have hlast : (e0 :: e1 :: rest).getLast (by simp) =
        (e1 :: rest).getLast (by simp) := List.getLast_cons (by simp)
    rw [hstep, hlast]
    exact ih e1 (save_job e0.1 e0.2 store) hnd2 hall2

/-- The concrete profile used in the processing counterexample. -/
def emptyProfile : UserProfile := ⟨[], 0, [], [], [], 0, 0⟩

/-- C1 counterexample: the discovery loop skips any posting whose url
already exists instead of re-upserting it, so ingesting two postings
with the same canonical url and different descriptions leaves one row
holding the FIRST description, not the later one as claimed. -/
theorem C1_counterexample :
    (process_jobs_store ⟨2025, 5, 1, 0⟩ emptyProfile []
      [{ id := some "id1", title := "t", company := "c", url := "u", description := "d1" },
       { id := some "id2", title := "t", company := "c", url := "u", description := "d2" }]).map
        (fun r => r.description) = ["d1"] ∧ ("d1" : String) ≠ "d2" :=
  ⟨by with_unfolding_all decide, by decide⟩

/-- C1 amended: a sequence of save_job calls whose postings all carry
the same id (the dedup key of the store) leaves exactly one row with
that id, and every such row holds the mutable fields (description,
status, score, last-seen timestamp) of the most recent call; however
two postings ingested through _process_jobs with the same canonical
url leave one row holding the FIRST description, because the loop
skips any posting whose url already exists instead of merging it. -/
theorem C1_upsert_amended :
    (∀ (k : String) (e0 : DateTime × Job) (entries : List (DateTime × Job))
      (store : List JobRow),
      (store.map JobRow.id).Nodup →
      (∀ e ∈ e0 :: entries, e.2.id = some k) →
      (save_job_fold (e0 :: entries) store).countP (fun r => r.id = some k) = 1 ∧
        ∀ r ∈ save_job_fold (e0 :: entries) store, r.id = some k →
          r.description = ((e0 :: entries).getLast (by simp)).2.description ∧
            r.status = ((e0 :: entries).getLast (by simp)).2.status.value ∧
            r.match_score = ((e0 :: entries).getLast (by simp)).2.match_score ∧
            r.updated_at = ((e0 :: entries).getLast (by simp)).1) ∧
    (∀ (now : DateTime) (p : UserProfile) (j1 j2 : Job), j1.url = j2.url →
      (process_jobs_store now p [] [j1, j2]).map (fun r => r.description) =
        [j1.description]) := by
  constructor
  · intro k e0 entries store hnd hall
    exact save_job_fold_spec k e0 entries store hnd hall
  · intro now p j1 j2 hurl
    have h1 : process_job_store now p [] j1 =
        [{ rowOfJob j1 now now with match_score := some (calculate_match_score j1 p) }] := by
      unfold process_job_store job_exists save_job update_job_match_score
      simp [rowOfJob]
    unfold process_jobs_store
    simp only [List.foldl_cons, List.foldl_nil]
    rw [h1]
    have h2 : job_exists j2.url
        [{ rowOfJob j1 now now with match_score := some (calculate_match_score j1 p) }] =
          true := by
      unfold job_exists
      simp [rowOfJob, hurl]
    unfold process_job_store
    rw [h2]
    simp [rowOfJob]

/-- Witness for C1 amended: two saves with the same id k1 leave
exactly one row with that id. -/
theorem C1_upsert_amended_witness :
    (save_job_fold
      [(⟨2025, 1, 1, 0⟩, { id := some "k1", description := "a" }),
       (⟨2025, 1, 2, 0⟩, { id := some "k1", description := "b" })] []).countP
        (fun r => r.id = some "k1") = 1 :=
  (C1_upsert_amended.1 "k1" (⟨2025, 1, 1, 0⟩, { id := some "k1", description := "a" })
    [(⟨2025, 1, 2, 0⟩, { id := some "k1", description := "b" })] []
    (by simp) (by decide)).1

/-! ## C8 -/

/-- A posting row that is old (found in 2020) and in the terminal
status rejected, with no other distinguishing data. -/
def oldRejectedRow : JobRow :=
  { id := some "j1", title := "t", company := "c", location := "",
    description := "", requirements := "", salary_min := none,
    salary_max := none, salary_currency := "BRL", url := "u",
    contact_email := none, source := "manual", status := "rejected",
    remote_ok := false, contract_type := "", required_skills := [],
    nice_to_have_skills := [], match_score := none, posted_date := none,
    found_date := ⟨2020, 1, 1, 0⟩, applied_date := none, tags := [],
    experience_level := "", created_at := ⟨2020, 1, 1, 0⟩,
    updated_at := ⟨2020, 1, 1, 0⟩ }

/-- C8 counterexample: on 2026-10-31 with a 30-day horizon the code's
cutoff is exactly 2026-10-01 (now minus 30 days), yet the sweep
deletes nothing and returns 0 although the store holds a posting from
2020 in the terminal status rejected: the DELETE filters on the
status string archived only, so an old rejected posting is never
removed, contradicting the claimed archived-or-rejected rule. -/
theorem C8_counterexample :
    cleanup_old_jobs ⟨2026, 10, 31, 0⟩ 30 [oldRejectedRow] [] =
      Except.ok ([oldRejectedRow], [], 0) ∧
      oldRejectedRow.status = "rejected" ∧
      DateTime.lt oldRejectedRow.found_date ⟨2026, 10, 1, 0⟩ = true := by
  decide

/-- C8 amended: when the computed cutoff is valid (the day-of-month
minus N stays inside the current month, else the call raises
ValueError), the sweep deletes a posting exactly when its found date
is before the cutoff AND its status is archived — rejected postings
are never deleted — removes the applications of the deleted postings,
and returns the number of deleted job rows. -/
theorem C8_cleanup_amended (now : DateTime) (days : Nat) (jobs : List JobRow)
    (apps : List AppRow) (cutoff : DateTime)
    (hcut : datetime_replace_day now ((now.day : Int) - (days : Int)) =
      Except.ok cutoff) :
    cleanup_old_jobs now days jobs apps =
      Except.ok (jobs.filter (fun r => !(cleanup_doomed cutoff r)),
        apps.filter (fun a =>
          !(((jobs.filter (cleanup_doomed cutoff)).map (fun r => r.id)).contains
            (some a.app.job_id))),
        (jobs.filter (cleanup_doomed cutoff)).length) ∧
      (∀ r ∈ jobs, cleanup_doomed cutoff r = true ↔
        r ∉ jobs.filter (fun r => !(cleanup_doomed cutoff r))) ∧
      (∀ r ∈ jobs, r.status = "rejected" →
        r ∈ jobs.filter (fun r => !(cleanup_doomed cutoff r))) := by
  refine ⟨?_, ?_, ?_⟩
  · unfold cleanup_old_jobs
    rw [hcut]
  · intro r hr
    constructor
    · intro hd hmem
      rw [List.mem_filter] at hmem
      rw [hd] at hmem
      simp at hmem
    · intro hmem
      by_contra hd
      rw [Bool.not_eq_true] at hd
      exact hmem (List.mem_filter.mpr ⟨hr, by rw [hd]; rfl⟩)
  · intro r hr hstatus
    apply List.mem_filter.mpr
    refine ⟨hr, ?_⟩
    unfold cleanup_doomed
    rw [hstatus]
    simp

/-- Witness for C8 amended at a store holding one old archived and
one old rejected posting: the archived one is deleted, the rejected
one survives and the count is 1. -/
theorem C8_cleanup_amended_witness :
    cleanup_old_jobs ⟨2026, 10, 31, 0⟩ 30
      [oldRejectedRow, { oldRejectedRow with id := some "j2", status := "archived" }] [] =
      Except.ok
        ([oldRejectedRow, { oldRejectedRow with id := some "j2", status := "archived" }].filter
          (fun r => !(cleanup_doomed ⟨2026, 10, 1, 0⟩ r)),
         List.filter (fun a =>
           !((([oldRejectedRow, { oldRejectedRow with id := some "j2", status := "archived" }].filter
             (cleanup_doomed ⟨2026, 10, 1, 0⟩)).map (fun r => r.id)).contains
               (some a.app.job_id))) [],
         ([oldRejectedRow, { oldRejectedRow with id := some "j2", status := "archived" }].filter
           (cleanup_doomed ⟨2026, 10, 1, 0⟩)).length) ∧
      oldRejectedRow ∈
        [oldRejectedRow, { oldRejectedRow with id := some "j2", status := "archived" }].filter
          (fun r => !(cleanup_doomed ⟨2026, 10, 1, 0⟩ r)) :=
  ⟨(C8_cleanup_amended ⟨2026, 10, 31, 0⟩ 30
      [oldRejectedRow, { oldRejectedRow with id := some "j2", status := "archived" }] []
      ⟨2026, 10, 1, 0⟩ (by decide)).1,
   (C8_cleanup_amended ⟨2026, 10, 31, 0⟩ 30
      [oldRejectedRow, { oldRejectedRow with id := some "j2", status := "archived" }] []
      ⟨2026, 10, 1, 0⟩ (by decide)).2.2 oldRejectedRow (by decide) (by decide)⟩

/-! ## C9 -/

set_option maxRecDepth 10000 in
/-- C9 counterexample: two postings with the same canonical url but
different titles receive different generated ids, because the hashed
dedup string is title_company_url, not the url alone. -/
theorem C9_counterexample :
    (job_post_init { title := "a", company := "c", url := "u" }).id ≠
      (job_post_init { title := "b", company := "c", url := "u" }).id ∧
      ({ title := "a", company := "c", url := "u" } : Job).url =
        ({ title := "b", company := "c", url := "u" } : Job).url :=
  ⟨by decide, rfl⟩

/-- C9 amended: the generated id is deterministic in exactly the
triple (title, company, url): any two postings constructed without an
explicit id that agree on those three fields receive the same id,
whatever their source, description or other fields; the id is the
first 12 hex digits of the md5 of title_company_url, and the source
identifier never enters the dedup key (also when the url is empty). -/
theorem C9_id_amended (j1 j2 : Job) (h1 : j1.id = none) (h2 : j2.id = none)
    (ht : j1.title = j2.title) (hc : j1.company = j2.company)
    (hu : j1.url = j2.url) :
    (job_post_init j1).id = (job_post_init j2).id ∧
      (job_post_init j1).id = some (job_generated_id j1) := by
  constructor
  · unfold job_post_init
    rw [h1, h2]
    simp only
    unfold job_generated_id job_unique_string
    rw [ht, hc, hu]
  · unfold job_post_init
    rw [h1]

/-- Witness for C9 amended: same title, company and url but different
source and description yield the same generated id. -/
theorem C9_id_amended_witness :
    (job_post_init
        { title := "t", company := "c", url := "u", description := "x" }).id =
      (job_post_init
        { title := "t", company := "c", url := "u", description := "y",
          source := JobSource.linkedin }).id :=
  (C9_id_amended
    { title := "t", company := "c", url := "u", description := "x" }
    { title := "t", company := "c", url := "u", description := "y",
      source := JobSource.linkedin }
    rfl rfl rfl rfl rfl).1

end JobHunter
